import Mathlib

/-!
Verification of the Structoo steel-member design pages (`src/floor_beams.py`,
`src/purlins.py`) against their natural-language specification.

The two pages orchestrate the design pipeline in their `calculate_results`
functions; the numerical engine they call (`utils/calculations.py` and the
constant tables of `utils/constants.py`) is not part of the sources, so those
functions are modelled from the specification and marked as such in their doc
comments.  All arithmetic is carried out over `ℚ`; fallible steps (division by
zero, unsupported load-pattern tags) return `Except`.
-/

namespace Structo

/-- Failure modes reachable in the embedded pipelines.  Note that there is no
`InvalidInput` constructor: neither `calculate_results` function in `src`
validates its inputs, so the only failures are a Python `ZeroDivisionError`
(modelled as `divisionByZero`) and an unknown load-pattern tag. -/
inductive EngineError
  | divisionByZero
  | unsupportedPattern
  deriving DecidableEq, Repr

/-- Pass/fail status of a design check.  The source represents these as the
strings `"Safe"`, `"Unsafe"` and
`"Cannot determine - missing section properties"`. -/
inductive Status
  | safe
  | notSafe
  | cannotDetermine
  deriving DecidableEq, Repr

/-- The two code regimes offered by the radio button in both pages. -/
inductive DesignCode
  | egyptian
  | american
  deriving DecidableEq, Repr

/-- Section families passed as `section_type`: floor beams request `"I-Beam"`,
purlins request `"Channel"`. -/
inductive SectionFamily
  | IBeam
  | Channel
  deriving DecidableEq, Repr

/-- The six entries of the unit select box in both pages. -/
inductive LoadUnit
  | kN
  | kNpm
  | kNpm2
  | kg
  | kgpm
  | kgpm2
  deriving DecidableEq, Repr

/-- The exact strings of the unit select box
`["kN", "kN/m", "kN/m²", "kg", "kg/m", "kg/m²"]`. -/
def unitStr : LoadUnit → String
  | .kN => "kN"
  | .kNpm => "kN/m"
  | .kNpm2 => "kN/m²"
  | .kg => "kg"
  | .kgpm => "kg/m"
  | .kgpm2 => "kg/m²"

/-- Prefix test on character lists, written structurally so that the kernel
can evaluate it. -/
def prefixMatches : List Char → List Char → Bool
  | [], _ => true
  | _ :: _, [] => false
  | p :: ps, c :: cs => p = c && prefixMatches ps cs

/-- Occurrence test on character lists: does `pat` occur contiguously in
`s`? -/
def listContainsSub (s pat : List Char) : Bool :=
  match s with
  | [] => pat.isEmpty
  | _ :: rest => prefixMatches pat s || listContainsSub rest pat

/-- The Python substring test `pat in s`, on the character data of the two
strings. -/
def containsStr (s pat : String) : Bool := listContainsSub s.data pat.data

/-- The substring test `'m' in load['unit'].lower()` used by both
`calculate_results` functions to decide whether a load is already linear. -/
def unitHasM (u : LoadUnit) : Bool :=
  ((unitStr u).data.map Char.toLower).contains 'm'

/-- Modelled from the spec: the fixed mass-to-force constant `KG_TO_KN` of
`utils/constants.py` (not in src); one kilogram weighs 0.00981 kN. -/
def KG_TO_KN : ℚ := 981 / 100000

/-- Modelled from the spec (§4.1): `convert_to_kn` of `utils/calculations.py`
(not in src) converts mass units to force via `KG_TO_KN` and leaves force
units unchanged.  The spatial distribution over the span is done by the
callers in src, not here: the function receives no span, width or spacing. -/
def convert_to_kn (value : ℚ) : LoadUnit → ℚ
  | .kN | .kNpm | .kNpm2 => value
  | .kg | .kgpm | .kgpm2 => value * KG_TO_KN

/-- The `case` column of the additional-loads table (`"Case A"`/`"Case B"`). -/
inductive LoadCaseTag
  | caseA
  | caseB
  deriving DecidableEq, Repr

/-- One row of the additional-loads table: `{value, unit, case}`.  The source
keys the third field as `case`. -/
structure AdditionalLoad where
  value : ℚ
  unit : LoadUnit
  loadCase : LoadCaseTag
  deriving DecidableEq, Repr

/-- One iteration of the additional-load loop shared by both pages
(`src/floor_beams.py` lines 77-84, `src/purlins.py` lines 76-82): convert to
kN, then divide by the span only when the unit string does not contain the
letter m. -/
def processAdditionalLoad (span : ℚ) (load : AdditionalLoad) :
    Except EngineError ℚ :=
  let load_value := convert_to_kn load.value load.unit
  if unitHasM load.unit then .ok load_value
  else if span = 0 then .error .divisionByZero
  else .ok (load_value / span)

/-- The full additional-load accumulation loop (`additional_load_total`). -/
def processAdditionalLoads (span : ℚ) :
    List AdditionalLoad → Except EngineError ℚ
  | [] => .ok 0
  | load :: rest => do
    let v ← processAdditionalLoad span load
    let r ← processAdditionalLoads span rest
    .ok (v + r)

/-- The two load patterns of the beam-analysis component (§4.2). -/
inductive LoadPattern
  | uniform
  | point_center
  deriving DecidableEq, Repr

/-- Recognition of the string pattern tags `"uniform"`/`"point_center"` passed
by src. -/
def parsePattern (s : String) : Option LoadPattern :=
  if s = "uniform" then some .uniform
  else if s = "point_center" then some .point_center
  else none

/-- Modelled from the spec (§4.2): `calculate_moment` of
`utils/calculations.py` (not in src).  Uniform: `w·L²/8`; point at center:
`P·L/4`; any other tag fails with `UnsupportedPattern`. -/
def calculate_moment (span load : ℚ) (load_type : String) :
    Except EngineError ℚ :=
  match parsePattern load_type with
  | some .uniform => .ok (load * span ^ 2 / 8)
  | some .point_center => .ok (load * span / 4)
  | none => .error .unsupportedPattern

/-- Modelled from the spec (§4.2): `calculate_shear_force` of
`utils/calculations.py` (not in src).  Uniform: `w·L/2`; point at center:
`P/2`. -/
def calculate_shear_force (span load : ℚ) (load_type : String) :
    Except EngineError ℚ :=
  match parsePattern load_type with
  | some .uniform => .ok (load * span / 2)
  | some .point_center => .ok (load / 2)
  | none => .error .unsupportedPattern

/-- Modelled from the spec (§4.1): `calculate_wind_load` of
`utils/calculations.py` (not in src) converts the per-area wind pressure to a
linear load by the fixed purlin spacing; the span argument takes no part in
the conversion. -/
def calculate_wind_load (span wind_pressure spacing : ℚ) : ℚ :=
  wind_pressure * spacing

/-- Modelled from the spec (§3): a steel grade, drawn from the enumerated
tables of `utils/constants.py` (not in src); only the yield stress enters the
check formulas. -/
structure SteelGrade where
  name : String
  fy : ℚ
  deriving DecidableEq, Repr

/-- Modelled from the spec (§3): one row of the section catalog of
`utils/constants.py` (not in src).  Lengths in mm, area in mm², `Ix` in mm⁴,
`Zx` in mm³. -/
structure SectionProperties where
  name : String
  height : ℚ
  width : ℚ
  web_thickness : ℚ
  flange_thickness : ℚ
  area : ℚ
  Ix : ℚ
  Zx : ℚ
  deriving DecidableEq, Repr

/-- Modelled from the spec: the steel elastic modulus in MPa. -/
def E_steel : ℚ := 200000

/-- Modelled from the spec (§4.6): bending capacity `Zx · yield_stress`, with
the mm³·MPa product scaled to kNm. -/
def momentCapacity (fy : ℚ) (sec : SectionProperties) : ℚ :=
  sec.Zx * fy / 1000000

/-- Result of the bending-capacity check (§4.6 item 1). -/
structure CapacityCheck where
  status : Status
  moment_capacity : ℚ
  safety_factor : ℚ
  utilization : ℚ
  deriving DecidableEq, Repr

/-- Modelled from the spec (§4.6 item 1): utilization = moment / capacity,
Safe iff utilization ≤ 1, safety factor = capacity / moment. -/
def capacityCheck (fy moment : ℚ) (sec : SectionProperties) : CapacityCheck :=
  let cap := momentCapacity fy sec
  let util := moment / cap
  { status := if util ≤ 1 then .safe else .notSafe
    moment_capacity := cap
    safety_factor := cap / moment
    utilization := util }

/-- Modelled from the spec (§4.6 item 2): the slenderness parameter
`sqrt(E / F_y)`.  The tabulated constants are not in src and the square root
is irrational, so an executable rational stand-in is used; no verified claim
depends on its exact value. -/
def sqrtE_over_fy (fy : ℚ) : ℚ :=
  if fy ≤ 0 then 0 else E_steel / (70 * fy)

/-- Modelled from the spec (§4.6 item 2): code-regime coefficient for the
flange compact limit; representative rational values, since
`utils/constants.py` is not in src. -/
def flangeCoeff : DesignCode → ℚ
  | .egyptian => 1 / 2
  | .american => 38 / 100

/-- Modelled from the spec (§4.6 item 2): code-regime coefficient for the web
compact limit; representative rational values. -/
def webCoeff : DesignCode → ℚ
  | .egyptian => 3
  | .american => 376 / 100

/-- Result of the compactness check (§4.6 item 2). -/
structure CompactnessCheck where
  classification : String
  flange_ratio : ℚ
  flange_compact_limit : ℚ
  flange_status : Status
  web_ratio : ℚ
  web_compact_limit : ℚ
  web_status : Status
  status : Status
  deriving DecidableEq, Repr

/-- Modelled from the spec (§4.6 item 2): flange ratio `(width/2)/t_f`, web
ratio `(height - 2·t_f)/t_w`, each against its coefficient times
`sqrt(E/F_y)`; Compact iff both axes are within their limits. -/
def compactnessCheck (code : DesignCode) (fy : ℚ) (sec : SectionProperties) :
    CompactnessCheck :=
  let fr := (sec.width / 2) / sec.flange_thickness
  let fl := flangeCoeff code * sqrtE_over_fy fy
  let wr := (sec.height - 2 * sec.flange_thickness) / sec.web_thickness
  let wl := webCoeff code * sqrtE_over_fy fy
  let fs : Status := if fr ≤ fl then .safe else .notSafe
  let ws : Status := if wr ≤ wl then .safe else .notSafe
  { classification := if fs = .safe ∧ ws = .safe then "Compact" else "Non-compact"
    flange_ratio := fr
    flange_compact_limit := fl
    flange_status := fs
    web_ratio := wr
    web_compact_limit := wl
    web_status := ws
    status := if fs = .safe ∧ ws = .safe then .safe else .notSafe }

/-- Result of the lateral-torsional-buckling check (§4.6 item 3). -/
structure LtbCheck where
  status : Status
  critical_moment : ℚ
  design_capacity : ℚ
  utilization : ℚ
  deriving DecidableEq, Repr

/-- Modelled from the spec (§4.6 item 3): code-specific reduction factor on
the LTB critical moment; representative rational values. -/
def ltbFactor : DesignCode → ℚ
  | .egyptian => 11 / 10
  | .american => 1

/-- Modelled from the spec (§4.6 item 3): the LTB check.  The effective
unbraced length can only derive from the span, because the selector call sites
in src (`src/floor_beams.py` lines 94-101, `src/purlins.py` lines 122-129) do
not pass the chord angle.  When the needed section properties are absent
(modelled as a non-positive `Ix`), the check reports
`"Cannot determine - missing section properties"`.  The critical elastic
buckling moment uses a representative simplified rational formula, since the
spec fixes none. -/
def ltbCheck (code : DesignCode) (fy moment span : ℚ)
    (sec : SectionProperties) : LtbCheck :=
  if sec.Ix ≤ 0 then
    { status := .cannotDetermine
      critical_moment := 0
      design_capacity := 0
      utilization := 0 }
  else
    let Lb := span
    let Mcr := E_steel * sec.Ix / (Lb ^ 2 * 1000000000)
    let design := min (momentCapacity fy sec) (Mcr / ltbFactor code)
    let util := moment / design
    { status := if util ≤ 1 then .safe else .notSafe
      critical_moment := Mcr
      design_capacity := design
      utilization := util }

/-- Result of the deflection check (§4.6 item 4). -/
structure DeflectionCheck where
  status : Status
  allowable_deflection : ℚ
  utilization : ℚ
  limit_ratio : ℚ
  deriving DecidableEq, Repr

/-- Modelled from the spec (§4.6 item 4): the deflection-ratio policy
constant per member type, keyed here by the section family the pipelines
request (floor beams pass `"I-Beam"`, purlins pass `"Channel"`). -/
def deflectionRatio : SectionFamily → ℚ
  | .IBeam => 360
  | .Channel => 240

/-- Modelled from the spec (§4.6 item 4): allowable = span / ratio,
utilization = actual / allowable, Safe iff utilization ≤ 1. -/
def deflectionCheck (ratio span actual : ℚ) : DeflectionCheck :=
  let allowable := span / ratio
  let util := actual / allowable
  { status := if util ≤ 1 then .safe else .notSafe
    allowable_deflection := allowable
    utilization := util
    limit_ratio := ratio }

/-- Modelled from the spec (§4.2/§4.4): the candidate deflection, recomputed
from the governing moment once a section (hence `Ix`) is known, per pattern. -/
def deflectionFromMoment (moment span Ix : ℚ) : LoadPattern → ℚ
  | .uniform => 5 * moment * span ^ 2 / (48 * E_steel * Ix)
  | .point_center => moment * span ^ 2 / (12 * E_steel * Ix)

/-- Modelled from the spec (§4.6): the aggregation rule: Safe iff the
capacity, compactness and deflection checks are Safe and the LTB check is Safe
or indeterminate (the indeterminate LTB state counts as Safe-permissive). -/
def overallStatus (cap comp ltb defl : Status) : Status :=
  if cap = .safe ∧ comp = .safe ∧ (ltb = .safe ∨ ltb = .cannotDetermine) ∧
      defl = .safe then .safe
  else .notSafe

/-- The aggregate result of one candidate evaluation (§3, §4.6). -/
structure DesignResult where
  section_properties : SectionProperties
  deflection : ℚ
  capacity_check : CapacityCheck
  compactness_check : CompactnessCheck
  ltb_check : LtbCheck
  deflection_check : DeflectionCheck
  overall_status : Status
  catalog_exhausted : Bool
  deriving DecidableEq, Repr

/-- Modelled from the spec (§4.6): run the four checks on one candidate
section and aggregate them. -/
def checkSection (code : DesignCode) (grade : SteelGrade) (moment span : ℚ)
    (pat : LoadPattern) (fam : SectionFamily) (sec : SectionProperties) :
    DesignResult :=
  let cap := capacityCheck grade.fy moment sec
  let comp := compactnessCheck code grade.fy sec
  let ltb := ltbCheck code grade.fy moment span sec
  let actual := deflectionFromMoment moment span sec.Ix pat
  let defl := deflectionCheck (deflectionRatio fam) span actual
  { section_properties := sec
    deflection := actual
    capacity_check := cap
    compactness_check := comp
    ltb_check := ltb
    deflection_check := defl
    overall_status := overallStatus cap.status comp.status ltb.status defl.status
    catalog_exhausted := false }

/-- Modelled from the spec (§4.5): the selector loop over a non-empty catalog
(first element plus rest): stop at the first Safe candidate; on exhaustion,
return the last candidate with `overall_status` forced to Unsafe and the
exhaustion flag set, rather than raising. -/
def selectGo (check : SectionProperties → DesignResult) :
    SectionProperties → List SectionProperties → DesignResult
  | sec, [] =>
    let r := check sec
    if r.overall_status = .safe then r
    else { r with overall_status := .notSafe, catalog_exhausted := true }
  | sec, sec2 :: rest =>
    let r := check sec
    if r.overall_status = .safe then r
    else selectGo check sec2 rest

/-- The last element of a non-empty list given as head plus tail; the selector
returns this candidate on exhaustion. -/
def lastSection : SectionProperties → List SectionProperties → SectionProperties
  | s, [] => s
  | _, s2 :: rest => lastSection s2 rest

/-- Modelled from the spec (§4.4): a small representative ascending catalog
per code regime and family, since the tables of `utils/constants.py` are not
in src. -/
def catalogFor : DesignCode → SectionFamily →
    SectionProperties × List SectionProperties
  | _, .IBeam =>
    (⟨"IPE 200", 200, 100, 56/10, 85/10, 2850, 19400000, 194000⟩,
     [⟨"IPE 300", 300, 150, 71/10, 107/10, 5380, 83600000, 557000⟩])
  | _, .Channel =>
    (⟨"UPN 120", 120, 55, 7, 9, 1700, 3640000, 60700⟩,
     [⟨"UPN 200", 200, 75, 85/10, 115/10, 3220, 19100000, 191000⟩])

/-- Modelled from the spec (§4.5): `select_optimal_section` of
`utils/calculations.py` (not in src), with the argument list of the src call
sites: `(moment, span, load_type, steel_grade, code, section_type)`.  An
unknown pattern tag fails with `UnsupportedPattern`; a catalog never raises on
exhaustion. -/
def select_optimal_section (moment span : ℚ) (load_type : String)
    (steel_grade : SteelGrade) (code : DesignCode)
    (section_type : SectionFamily) : Except EngineError DesignResult :=
  match parsePattern load_type with
  | none => .error .unsupportedPattern
  | some pat =>
    let cat := catalogFor code section_type
    .ok (selectGo (checkSection code steel_grade moment span pat section_type)
      cat.1 cat.2)

/-- The named linear/point load aggregate handed to the combiner
(`loads` dictionary, `src/purlins.py` lines 85-91): dead, live, wind and
additional are linear (kN/m); maintenance is a point load (kN). -/
structure Loads where
  dead : ℚ
  live : ℚ
  wind : ℚ
  maintenance : ℚ
  additional : ℚ
  deriving DecidableEq, Repr

/-- Maximum-moment selection with the earlier-enumerated combination winning
ties: a later candidate replaces the running best only when strictly
greater. -/
def pickCritical : List (String × ℚ) → String × ℚ → String × ℚ
  | [], best => best
  | c :: rest, best => pickCritical rest (if best.2 < c.2 then c else best)

/-- Output of the combiner: the governing moment and the display name of the
governing combination. -/
structure CriticalMomentResult where
  critical_moment : ℚ
  critical_case : String
  deriving DecidableEq, Repr

/-- Modelled from the spec (§4.3): `calculate_critical_moment` of
`utils/calculations.py` (not in src).  Enumerates, in order, Dead+Live,
Dead+Live+Wind, Maintenance-alone (as a point load at center, on the isolated
maintenance load), and Dead+Live+Maintenance-distributed; the additional
loads are folded into each uniform combination; the combination of maximum
moment wins, earlier enumeration winning ties.  The distributed-maintenance
combination divides the maintenance load by the span, so a zero span fails as
a division by zero. -/
def calculate_critical_moment (l : Loads) (span : ℚ) :
    Except EngineError CriticalMomentResult :=
  if span = 0 then .error .divisionByZero
  else do
    let m1 ← calculate_moment span (l.dead + l.live + l.additional) "uniform"
    let m2 ← calculate_moment span (l.dead + l.live + l.wind + l.additional)
      "uniform"
    let m3 ← calculate_moment span l.maintenance "point_center"
    let m4 ← calculate_moment span
      (l.dead + l.live + l.maintenance / span + l.additional) "uniform"
    let best := pickCritical
      [("Dead + Live + Wind", m2), ("Maintenance (point load)", m3),
       ("Dead + Live + Maintenance", m4)] ("Dead + Live", m1)
    .ok { critical_moment := best.2, critical_case := best.1 }

/-- The shear block of `src/purlins.py` lines 100-119: a governing maintenance
point case takes `maintenance/2` directly; otherwise the uniform load is
re-assembled by substring tests on the critical-case name ("Dead + Live",
distributed "Maintenance", "Wind"), the additional total is added, and the
uniform shear formula is applied.  The distributed-maintenance branch divides
by the span. -/
def purlinShearAndType (span maintenance_load_kn total_dead_load
    total_live_load total_wind_load additional_load_total : ℚ)
    (critical_case : String) : Except EngineError (ℚ × String) :=
  if critical_case = "Maintenance (point load)" then
    .ok (maintenance_load_kn / 2, "point_center")
  else do
    let u1 : ℚ := if containsStr critical_case "Dead + Live" then
      total_dead_load + total_live_load else 0
    let u2 ← if containsStr critical_case "Maintenance" &&
        !containsStr critical_case "point" then
        (if span = 0 then Except.error EngineError.divisionByZero
         else .ok (maintenance_load_kn / span))
      else .ok (0 : ℚ)
    let u3 : ℚ := if containsStr critical_case "Wind" then total_wind_load
      else 0
    let total_uniform_load := u1 + u2 + u3 + additional_load_total
    let max_shear ← calculate_shear_force span total_uniform_load "uniform"
    .ok (max_shear, "uniform")

/-- The fixed purlin spacing of `src/purlins.py` line 65. -/
def purlin_spacing : ℚ := 3 / 2

/-- Input record of the purlin page (`src/purlins.py` session keys read at
lines 50-59).  The maintenance load is in kg. -/
structure PurlinInputs where
  span : ℚ
  dead_load : ℚ
  live_load : ℚ
  is_accessible : Bool
  maintenance_load : ℚ
  wind_load : ℚ
  chord_angle : ℚ
  steel_grade : SteelGrade
  design_code : DesignCode
  additional_loads : List AdditionalLoad
  deriving Repr

/-- The computed part of the purlin results (`src/purlins.py` lines 61-129). -/
structure PurlinCore where
  moment : ℚ
  shear : ℚ
  critical_case : String
  load_type : String
  results : DesignResult
  deriving DecidableEq, Repr

/-- The computation of `calculate_results` in `src/purlins.py` (lines 61-129):
maintenance kg→kN, wind pressure times the fixed spacing, additional-load
accumulation, critical-moment selection, the case-dependent shear block, and
the channel-section selection. -/
def purlinCore (span dead_load live_load maintenance_load wind_load : ℚ)
    (steel_grade : SteelGrade) (design_code : DesignCode)
    (additional_loads : List AdditionalLoad) :
    Except EngineError PurlinCore := do
  let maintenance_load_kn := maintenance_load * KG_TO_KN
  let total_dead_load := dead_load
  let total_live_load := live_load
  let total_wind_load := calculate_wind_load span wind_load purlin_spacing
  let additional_load_total ← processAdditionalLoads span additional_loads
  let loads : Loads :=
    { dead := total_dead_load, live := total_live_load,
      wind := total_wind_load, maintenance := maintenance_load_kn,
      additional := additional_load_total }
  let mres ← calculate_critical_moment loads span
  let st ← purlinShearAndType span maintenance_load_kn total_dead_load
    total_live_load total_wind_load additional_load_total mres.critical_case
  let results ← select_optimal_section mres.critical_moment span st.2
    steel_grade design_code .Channel
  .ok { moment := mres.critical_moment, shear := st.1,
        critical_case := mres.critical_case, load_type := st.2,
        results := results }

/-- The stored purlin results record (`st.session_state.purlin_design_results`,
`src/purlins.py` lines 138-155): the input echo plus the computed values. -/
structure PurlinOutputs where
  span : ℚ
  dead_load : ℚ
  live_load : ℚ
  is_accessible : Bool
  maintenance_load : ℚ
  wind_load : ℚ
  chord_angle : ℚ
  steel_grade : SteelGrade
  design_code : DesignCode
  additional_loads : List AdditionalLoad
  moment : ℚ
  shear : ℚ
  critical_case : String
  load_type : String
  results : DesignResult
  deriving Repr

/-- `calculate_results` of `src/purlins.py`: unpack the inputs, run the
computation, and store the echo of every input next to the computed values.
The chord angle, the accessibility flag and the per-load case tags take part
only in this echo. -/
def purlinCalc (i : PurlinInputs) : Except EngineError PurlinOutputs :=
  (purlinCore i.span i.dead_load i.live_load i.maintenance_load i.wind_load
    i.steel_grade i.design_code i.additional_loads).map fun c =>
    { span := i.span, dead_load := i.dead_load, live_load := i.live_load,
      is_accessible := i.is_accessible,
      maintenance_load := i.maintenance_load, wind_load := i.wind_load,
      chord_angle := i.chord_angle, steel_grade := i.steel_grade,
      design_code := i.design_code, additional_loads := i.additional_loads,
      moment := c.moment, shear := c.shear,
      critical_case := c.critical_case, load_type := c.load_type,
      results := c.results }

/-- The hardcoded tributary width of `src/floor_beams.py` line 63. -/
def beam_width : ℚ := 1

/-- Input record of the floor-beam page (`src/floor_beams.py` session keys
read at lines 49-58). -/
structure FloorBeamInputs where
  span : ℚ
  dead_load : ℚ
  floor_cover_load : ℚ
  live_load : ℚ
  is_accessible : Bool
  chord_angle : ℚ
  steel_grade : SteelGrade
  design_code : DesignCode
  supported_beam_reaction : ℚ
  additional_loads : List AdditionalLoad
  deriving Repr

/-- The computed part of the floor-beam results
(`src/floor_beams.py` lines 60-101). -/
structure FloorBeamCore where
  total_load : ℚ
  moment : ℚ
  shear : ℚ
  results : DesignResult
  deriving DecidableEq, Repr

/-- The computation of `calculate_results` in `src/floor_beams.py` (lines
60-101): floor cover and live load times the hardcoded tributary width, a
positive supported-beam reaction turned into the equivalent uniform load
`reaction / span` and added to the dead load, additional-load accumulation,
then moment, shear and the I-beam selection, all under the `"uniform"`
pattern tag. -/
def floorBeamCore (span dead_load floor_cover_load live_load
    supported_beam_reaction : ℚ) (steel_grade : SteelGrade)
    (design_code : DesignCode) (additional_loads : List AdditionalLoad) :
    Except EngineError FloorBeamCore := do
  let total_dead_load := dead_load
  let total_floor_cover_load := floor_cover_load * beam_width
  let total_live_load := live_load * beam_width
  let total_dead_load ←
    if 0 < supported_beam_reaction then
      (if span = 0 then Except.error EngineError.divisionByZero
       else .ok (total_dead_load + supported_beam_reaction / span))
    else .ok total_dead_load
  let additional_load_total ← processAdditionalLoads span additional_loads
  let total_load := total_dead_load + total_floor_cover_load +
    total_live_load + additional_load_total
  let max_moment ← calculate_moment span total_load "uniform"
  let max_shear ← calculate_shear_force span total_load "uniform"
  let results ← select_optimal_section max_moment span "uniform" steel_grade
    design_code .IBeam
  .ok { total_load := total_load, moment := max_moment, shear := max_shear,
        results := results }

/-- The stored floor-beam results record
(`st.session_state.design_results`, `src/floor_beams.py` lines 110-126). -/
structure FloorBeamOutputs where
  span : ℚ
  dead_load : ℚ
  floor_cover_load : ℚ
  live_load : ℚ
  is_accessible : Bool
  chord_angle : ℚ
  steel_grade : SteelGrade
  design_code : DesignCode
  supported_beam_reaction : ℚ
  additional_loads : List AdditionalLoad
  total_load : ℚ
  moment : ℚ
  shear : ℚ
  results : DesignResult
  deriving Repr

/-- `calculate_results` of `src/floor_beams.py`: unpack the inputs, run the
computation, and store the echo of every input next to the computed values.
The chord angle, the accessibility flag and the per-load case tags take part
only in this echo. -/
def floorBeamCalc (i : FloorBeamInputs) : Except EngineError FloorBeamOutputs :=
  (floorBeamCore i.span i.dead_load i.floor_cover_load i.live_load
    i.supported_beam_reaction i.steel_grade i.design_code
    i.additional_loads).map fun c =>
    { span := i.span, dead_load := i.dead_load,
      floor_cover_load := i.floor_cover_load, live_load := i.live_load,
      is_accessible := i.is_accessible, chord_angle := i.chord_angle,
      steel_grade := i.steel_grade, design_code := i.design_code,
      supported_beam_reaction := i.supported_beam_reaction,
      additional_loads := i.additional_loads,
      total_load := c.total_load, moment := c.moment, shear := c.shear,
      results := c.results }

/-- A representative steel grade (yield stress 240 MPa) for the concrete
runs below. -/
def g0 : SteelGrade := ⟨"St 37", 240⟩

/-- Concrete purlin run: span 4 m, every named load zero, one additional load
of 1 kN/m². -/
def exC2 : PurlinInputs :=
  ⟨4, 0, 0, false, 0, 0, 0, g0, .egyptian, [⟨1, .kNpm2, .caseA⟩]⟩

/-- Concrete purlin run: span 4 m, 1000 kg maintenance load, one additional
load of 1 kN/m. -/
def exC3A : PurlinInputs :=
  ⟨4, 0, 0, false, 1000, 0, 0, g0, .egyptian, [⟨1, .kNpm, .caseA⟩]⟩

/-- The same run as `exC3A` with the additional load value zeroed. -/
def exC3B : PurlinInputs :=
  ⟨4, 0, 0, false, 1000, 0, 0, g0, .egyptian, [⟨0, .kNpm, .caseA⟩]⟩

/-- Concrete floor-beam run with a negative span of -5 m and a 1 kN/m dead
load. -/
def exC7 : FloorBeamInputs :=
  ⟨-5, 1, 0, 0, false, 0, g0, .egyptian, 0, []⟩

/-- Concrete purlin run with a negative span of -5 m. -/
def exC7p : PurlinInputs :=
  ⟨-5, 1 / 2, 1, false, 100, 7 / 10, 0, g0, .egyptian, []⟩

/-- Concrete floor-beam run: span 5 m, dead load 1 kN/m, supported-beam
reaction 10 kN. -/
def exC9 : FloorBeamInputs :=
  ⟨5, 1, 0, 0, false, 0, g0, .egyptian, 10, []⟩

/-- Concrete floor-beam run for the case-tag comparison. -/
def exC10f : FloorBeamInputs :=
  ⟨5, 1, 0, 0, false, 0, g0, .egyptian, 0, []⟩

/-- Concrete purlin run for the case-tag comparison. -/
def exC10p : PurlinInputs :=
  ⟨4, 1, 1, false, 100, 0, 0, g0, .egyptian, []⟩

theorem ok_bind {α β : Type} (a : α) (f : α → Except EngineError β) :
    (Except.ok a >>= f) = f a := rfl

theorem error_bind {α β : Type} (e : EngineError)
    (f : α → Except EngineError β) :
    ((Except.error e : Except EngineError α) >>= f) = .error e := rfl

theorem map_ok {α β : Type} (f : α → β) (a : α) :
    (Except.ok a : Except EngineError α).map f = .ok (f a) := rfl

theorem map_error {α β : Type} (f : α → β) (e : EngineError) :
    (Except.error e : Except EngineError α).map f = .error e := rfl

theorem except_map_map {α β γ : Type} (f : α → β) (g : β → γ)
    (e : Except EngineError α) :
    (e.map f).map g = e.map fun a => g (f a) := by
  cases e <;> rfl

theorem unitHasM_kN : unitHasM .kN = false := by decide

theorem unitHasM_kNpm : unitHasM .kNpm = true := by decide

theorem unitHasM_kNpm2 : unitHasM .kNpm2 = true := by decide

theorem unitHasM_kg : unitHasM .kg = false := by decide

theorem unitHasM_kgpm : unitHasM .kgpm = true := by decide

theorem unitHasM_kgpm2 : unitHasM .kgpm2 = true := by decide

theorem parsePattern_uniform : parsePattern "uniform" = some .uniform := by
  decide

theorem parsePattern_point :
    parsePattern "point_center" = some .point_center := by decide

theorem containsStr_DL_DL : containsStr "Dead + Live" "Dead + Live" = true := by
  decide

theorem containsStr_DL_M :
    containsStr "Dead + Live" "Maintenance" = false := by decide

theorem containsStr_DL_W : containsStr "Dead + Live" "Wind" = false := by decide

theorem streq_DL_MP : ("Dead + Live" = "Maintenance (point load)") = False := by
  simp only [eq_iff_iff, iff_false]
  decide

theorem calculate_moment_uniform (span load : ℚ) :
    calculate_moment span load "uniform" = .ok (load * span ^ 2 / 8) := by
  simp [calculate_moment, parsePattern_uniform]

theorem calculate_moment_point (span load : ℚ) :
    calculate_moment span load "point_center" = .ok (load * span / 4) := by
  simp [calculate_moment, parsePattern_point]

theorem calculate_shear_uniform (span load : ℚ) :
    calculate_shear_force span load "uniform" = .ok (load * span / 2) := by
  simp [calculate_shear_force, parsePattern_uniform]

theorem calculate_shear_point (span load : ℚ) :
    calculate_shear_force span load "point_center" = .ok (load / 2) := by
  simp [calculate_shear_force, parsePattern_point]

/-- C1: for every span L > 0 and loads w, P, the modelled beam analysis
returns exactly M = w·L²/8 and V = w·L/2 for the uniform pattern, and
M = P·L/4 and V = P/2 for the point-at-center pattern. -/
theorem c1_beam_analysis_formulas (L w P : ℚ) (hL : 0 < L) :
    calculate_moment L w "uniform" = .ok (w * L ^ 2 / 8) ∧
    calculate_shear_force L w "uniform" = .ok (w * L / 2) ∧
    calculate_moment L P "point_center" = .ok (P * L / 4) ∧
    calculate_shear_force L P "point_center" = .ok (P / 2) :=
  ⟨calculate_moment_uniform L w, calculate_shear_uniform L w,
   calculate_moment_point L P, calculate_shear_point L P⟩

/-- Witness for C1 at the worked example of the spec: L = 5 m, w = 4 kN/m
gives M = 12.5 kNm and V = 10 kN; P = 8 kN at L = 5 gives V = 4 kN. -/
theorem c1_beam_analysis_formulas_witness :
    calculate_moment 5 4 "uniform" = .ok (25 / 2) ∧
    calculate_shear_force 5 4 "uniform" = .ok 10 ∧
    calculate_shear_force 5 8 "point_center" = .ok 4 := by
  obtain ⟨h1, h2, _, h4⟩ := c1_beam_analysis_formulas 5 4 8 (by norm_num)
  refine ⟨?_, ?_, ?_⟩
  · rw [h1]; norm_num
  · rw [h2]; norm_num
  · rw [h4]; norm_num

theorem overallStatus_safe_iff (a b c d : Status) :
    overallStatus a b c d = .safe ↔
      (a = .safe ∧ b = .safe ∧ (c = .safe ∨ c = .cannotDetermine) ∧
        d = .safe) := by
  cases a <;> cases b <;> cases c <;> cases d <;> decide

theorem forced_overall (r : DesignResult) :
    ({ r with overall_status := .notSafe, catalog_exhausted := true } :
      DesignResult).overall_status = .notSafe := rfl

theorem forced_capacity (r : DesignResult) :
    ({ r with overall_status := .notSafe, catalog_exhausted := true } :
      DesignResult).capacity_check = r.capacity_check := rfl

theorem forced_compactness (r : DesignResult) :
    ({ r with overall_status := .notSafe, catalog_exhausted := true } :
      DesignResult).compactness_check = r.compactness_check := rfl

theorem forced_ltb (r : DesignResult) :
    ({ r with overall_status := .notSafe, catalog_exhausted := true } :
      DesignResult).ltb_check = r.ltb_check := rfl

theorem forced_deflection (r : DesignResult) :
    ({ r with overall_status := .notSafe, catalog_exhausted := true } :
      DesignResult).deflection_check = r.deflection_check := rfl

theorem forced_section (r : DesignResult) :
    ({ r with overall_status := .notSafe, catalog_exhausted := true } :
      DesignResult).section_properties = r.section_properties := rfl

theorem forced_exhausted (r : DesignResult) :
    ({ r with overall_status := .notSafe, catalog_exhausted := true } :
      DesignResult).catalog_exhausted = true := rfl

/-- The selector loop returns either some candidate evaluation unchanged, or
the forced-Unsafe copy of a failed candidate evaluation. -/
theorem selectGo_shape (check : SectionProperties → DesignResult) :
    ∀ (t : List SectionProperties) (h : SectionProperties),
      (∃ s, selectGo check h t = check s) ∨
        (∃ s, (check s).overall_status ≠ .safe ∧
          selectGo check h t =
            { check s with
              overall_status := .notSafe
              catalog_exhausted := true }) := by
  intro t
  induction t with
  | nil =>
    intro h
    by_cases hs : (check h).overall_status = .safe
    · exact .inl ⟨h, by simp [selectGo, hs]⟩
    · exact .inr ⟨h, hs, by simp [selectGo, hs]⟩
  | cons s2 rest ih =>
    intro h
    by_cases hs : (check h).overall_status = .safe
    · exact .inl ⟨h, by simp [selectGo, hs]⟩
    · simpa [selectGo, hs] using ih s2

theorem checkSection_overall_iff (code : DesignCode) (grade : SteelGrade)
    (moment span : ℚ) (pat : LoadPattern) (fam : SectionFamily)
    (sec : SectionProperties) :
    (checkSection code grade moment span pat fam sec).overall_status = .safe ↔
      ((checkSection code grade moment span pat fam sec).capacity_check.status
          = .safe ∧
        (checkSection code grade moment span pat fam
          sec).compactness_check.status = .safe ∧
        ((checkSection code grade moment span pat fam sec).ltb_check.status
            = .safe ∨
          (checkSection code grade moment span pat fam sec).ltb_check.status
            = .cannotDetermine) ∧
        (checkSection code grade moment span pat fam
          sec).deflection_check.status = .safe) := by
  simp only [checkSection]
  exact overallStatus_safe_iff _ _ _ _

theorem selectGo_overall_iff (check : SectionProperties → DesignResult)
    (hc : ∀ s, (check s).overall_status = .safe ↔
      ((check s).capacity_check.status = .safe ∧
        (check s).compactness_check.status = .safe ∧
        ((check s).ltb_check.status = .safe ∨
          (check s).ltb_check.status = .cannotDetermine) ∧
        (check s).deflection_check.status = .safe)) :
    ∀ (t : List SectionProperties) (h : SectionProperties),
      (selectGo check h t).overall_status = .safe ↔
        ((selectGo check h t).capacity_check.status = .safe ∧
          (selectGo check h t).compactness_check.status = .safe ∧
          ((selectGo check h t).ltb_check.status = .safe ∨
            (selectGo check h t).ltb_check.status = .cannotDetermine) ∧
          (selectGo check h t).deflection_check.status = .safe) := by
  intro t h
  rcases selectGo_shape check t h with ⟨s, heq⟩ | ⟨s, hns, heq⟩
  · rw [heq]
    exact hc s
  · rw [heq]
    rw [forced_overall, forced_capacity, forced_compactness, forced_ltb,
      forced_deflection]
    constructor
    · intro habs
      exact absurd habs (by decide)
    · intro habs
      exact absurd ((hc s).mpr habs) hns

/-- C4: for every design run (any checker inputs, any non-empty catalog), the
overall status of the returned DesignResult is Safe exactly when the
capacity, compactness and deflection checks are Safe and the LTB check is
Safe or reports the indeterminate missing-properties state, which counts as
Safe for the overall verdict. -/
theorem c4_overall_status_iff (code : DesignCode) (grade : SteelGrade)
    (moment span : ℚ) (pat : LoadPattern) (fam : SectionFamily)
    (h : SectionProperties) (t : List SectionProperties) :
    (selectGo (checkSection code grade moment span pat fam) h t).overall_status
        = .safe ↔
      ((selectGo (checkSection code grade moment span pat fam) h
            t).capacity_check.status = .safe ∧
        (selectGo (checkSection code grade moment span pat fam) h
            t).compactness_check.status = .safe ∧
        ((selectGo (checkSection code grade moment span pat fam) h
              t).ltb_check.status = .safe ∨
          (selectGo (checkSection code grade moment span pat fam) h
              t).ltb_check.status = .cannotDetermine) ∧
        (selectGo (checkSection code grade moment span pat fam) h
            t).deflection_check.status = .safe) :=
  selectGo_overall_iff _
    (fun s => checkSection_overall_iff code grade moment span pat fam s) t h

theorem capacityCheck_notSafe (fy moment : ℚ) (sec : SectionProperties)
    (h1 : 0 < momentCapacity fy sec) (h2 : momentCapacity fy sec < moment) :
    (capacityCheck fy moment sec).status = .notSafe := by
  have hlt : 1 < moment / momentCapacity fy sec := (one_lt_div h1).mpr h2
  simp only [capacityCheck]
  rw [if_neg (not_le.mpr hlt)]

theorem overallStatus_notSafe_of_cap (a b c d : Status) (ha : a ≠ .safe) :
    overallStatus a b c d = .notSafe := by
  unfold overallStatus
  rw [if_neg]
  rintro ⟨h1, -⟩
  exact ha h1

theorem checkSection_overall_notSafe (code : DesignCode) (grade : SteelGrade)
    (moment span : ℚ) (pat : LoadPattern) (fam : SectionFamily)
    (sec : SectionProperties) (h1 : 0 < momentCapacity grade.fy sec)
    (h2 : momentCapacity grade.fy sec < moment) :
    (checkSection code grade moment span pat fam sec).overall_status
      ≠ .safe := by
  have hcap := capacityCheck_notSafe grade.fy moment sec h1 h2
  simp only [checkSection]
  rw [overallStatus_notSafe_of_cap]
  · decide
  · rw [hcap]
    decide

theorem checkSection_section (code : DesignCode) (grade : SteelGrade)
    (moment span : ℚ) (pat : LoadPattern) (fam : SectionFamily)
    (sec : SectionProperties) :
    (checkSection code grade moment span pat fam sec).section_properties
      = sec := rfl

/-- When every candidate fails, the selector loop reaches and returns the
last candidate, forced to Unsafe and flagged as exhausted. -/
theorem selectGo_exhaust (check : SectionProperties → DesignResult) :
    ∀ (t : List SectionProperties) (h : SectionProperties),
      (∀ s, s ∈ h :: t → (check s).overall_status ≠ .safe) →
        selectGo check h t =
          { check (lastSection h t) with
            overall_status := .notSafe
            catalog_exhausted := true } := by
  intro t
  induction t with
  | nil =>
    intro h hfail
    simp [selectGo, lastSection, hfail h (by simp)]
  | cons s2 rest ih =>
    intro h hfail
    have hrec := ih s2 (by
      intro s hs
      exact hfail s (List.mem_cons_of_mem h hs))
    simp only [selectGo, lastSection]
    rw [if_neg (hfail h (by simp))]
    exact hrec

/-- C5: whenever the moment strictly exceeds the (positive) bending capacity
of every section of the catalog, the selector does not raise: it returns the
result of the last catalog section, with overall status Unsafe and the
`catalog_exhausted` flag set. -/
theorem c5_catalog_exhaustion (grade : SteelGrade) (moment span : ℚ)
    (code : DesignCode) (fam : SectionFamily)
    (hcap : ∀ s, s ∈ (catalogFor code fam).1 :: (catalogFor code fam).2 →
      0 < momentCapacity grade.fy s ∧ momentCapacity grade.fy s < moment) :
    ∃ r : DesignResult,
      select_optimal_section moment span "uniform" grade code fam = .ok r ∧
      r.catalog_exhausted = true ∧
      r.overall_status = .notSafe ∧
      r.section_properties =
        lastSection (catalogFor code fam).1 (catalogFor code fam).2 := by
  have hgo := selectGo_exhaust
    (checkSection code grade moment span .uniform fam)
    (catalogFor code fam).2 (catalogFor code fam).1
    (by
      intro s hs
      exact checkSection_overall_notSafe code grade moment span .uniform fam s
        (hcap s hs).1 (hcap s hs).2)
  refine ⟨selectGo (checkSection code grade moment span .uniform fam)
    (catalogFor code fam).1 (catalogFor code fam).2, ?_, ?_, ?_, ?_⟩
  · simp [select_optimal_section, parsePattern_uniform]
  · rw [hgo]
  · rw [hgo]
  · rw [hgo]
    rfl

/-- Witness for C5: with yield stress 240 MPa the two channel catalog entries
have capacities 14.568 kNm and 45.84 kNm, so a 1000 kNm moment exhausts the
catalog and the larger section comes back Unsafe and flagged. -/
theorem c5_catalog_exhaustion_witness :
    ∃ r : DesignResult,
      select_optimal_section 1000 6 "uniform" g0 .egyptian .Channel = .ok r ∧
      r.catalog_exhausted = true ∧
      r.overall_status = .notSafe ∧
      r.section_properties = lastSection (catalogFor .egyptian .Channel).1
        (catalogFor .egyptian .Channel).2 := by
  apply c5_catalog_exhaustion g0 1000 6 .egyptian .Channel
  intro s hs
  simp only [catalogFor, List.mem_cons, List.mem_singleton,
    List.not_mem_nil, or_false] at hs
  rcases hs with h | h <;> rw [h] <;> constructor <;>
    norm_num [momentCapacity, g0]

/-- C6: the deflection check of a floor-beam run (family I-Beam) and of a
purlin run (family Channel) are the same parametric check applied at the
ratio constants 360 and 240 respectively, so the allowable deflection is
span/360 for floor beams and span/240 for purlins, on any identical span and
actual deflection. -/
theorem c6_deflection_ratio_policy (code : DesignCode) (grade : SteelGrade)
    (moment span actual : ℚ) (pat : LoadPattern) (sec : SectionProperties) :
    (checkSection code grade moment span pat .IBeam sec).deflection_check
        = deflectionCheck 360 span
          (deflectionFromMoment moment span sec.Ix pat) ∧
    (checkSection code grade moment span pat .Channel sec).deflection_check
        = deflectionCheck 240 span
          (deflectionFromMoment moment span sec.Ix pat) ∧
    (deflectionCheck 360 span actual).allowable_deflection = span / 360 ∧
    (deflectionCheck 240 span actual).allowable_deflection = span / 240 ∧
    (deflectionCheck 360 span actual).limit_ratio = 360 ∧
    (deflectionCheck 240 span actual).limit_ratio = 240 :=
  ⟨rfl, rfl, rfl, rfl, rfl, rfl⟩

/-- C2 counterexample: in the purlin run `exC2` (span 4 m, all named loads
zero, one additional load of 1 kN/m²) the additional per-area load is treated
as an already-linear 1 kN/m — the unit string contains the letter m — so the
governing moment is 1·4²/8 = 2 kNm.  Had the load been converted through the
fixed purlin spacing of 1.5 m, the moment would have been 1.5·4²/8 = 3 kNm,
so the claimed conversion does not happen. -/
theorem c2_per_area_counterexample :
    (purlinCalc exC2).map (fun o => o.moment) = .ok 2 ∧
    (2 : ℚ) ≠ 3 / 2 * 4 ^ 2 / 8 := by
  constructor
  · norm_num [purlinCalc, purlinCore, processAdditionalLoads,
      processAdditionalLoad, convert_to_kn, KG_TO_KN, calculate_wind_load,
      purlin_spacing, calculate_critical_moment, calculate_moment,
      calculate_shear_force, parsePattern_uniform, parsePattern_point,
      unitHasM_kNpm2, pickCritical, purlinShearAndType, containsStr_DL_DL,
      containsStr_DL_M, containsStr_DL_W, streq_DL_MP,
      select_optimal_section, ok_bind, map_ok, exC2]
  · norm_num

/-- C2 amended: only the fixed per-area inputs are multiplied by a tributary
width or spacing (floor-cover and live load by the hardcoded `beam_width = 1`
for floor beams, wind pressure by the fixed purlin spacing for purlins).  An
additional load whose unit is per-area (kN/m² or kg/m²) is treated as if it
were already a per-length load: the substring test on the letter m accepts
it, so it is added unconverted (only mass turns into force). -/
theorem c2_per_area_amended (span v w : ℚ) (c : LoadCaseTag) :
    processAdditionalLoad span ⟨v, .kNpm2, c⟩ = .ok v ∧
    processAdditionalLoad span ⟨v, .kgpm2, c⟩ = .ok (v * KG_TO_KN) ∧
    calculate_wind_load span w purlin_spacing = w * purlin_spacing ∧
    beam_width = 1 := by
  refine ⟨?_, ?_, rfl, rfl⟩
  · simp [processAdditionalLoad, convert_to_kn, unitHasM_kNpm2]
  · simp [processAdditionalLoad, convert_to_kn, unitHasM_kgpm2]

/-- C3 counterexample: the purlin runs `exC3A` (additional load 1 kN/m) and
`exC3B` (additional load 0) differ only in the additional load, yet report
the same governing moment 9.81 kNm and the same shear 4.905 kN, because the
governing combination is the maintenance point load, whose moment and shear
use the isolated maintenance load only.  The additional load is therefore
omitted from the reported governing moment and shear. -/
theorem c3_maintenance_counterexample :
    (purlinCalc exC3A).map (fun o => (o.moment, o.shear, o.critical_case)) =
      (purlinCalc exC3B).map (fun o => (o.moment, o.shear, o.critical_case)) ∧
    (purlinCalc exC3A).map (fun o => (o.moment, o.shear, o.critical_case)) =
      .ok (981 / 100, 981 / 200, "Maintenance (point load)") := by
  constructor <;>
    norm_num [purlinCalc, purlinCore, processAdditionalLoads,
      processAdditionalLoad, convert_to_kn, KG_TO_KN, calculate_wind_load,
      purlin_spacing, calculate_critical_moment, calculate_moment,
      calculate_shear_force, parsePattern_uniform, parsePattern_point,
      unitHasM_kNpm, pickCritical, purlinShearAndType,
      select_optimal_section, ok_bind, map_ok, exC3A, exC3B]

/-- C3 amended: the additional loads are folded into each of the three
uniform combinations, whose candidate moments are the uniform formula on the
summed linear load including the additional total; but the Maintenance-alone
combination is evaluated as the isolated maintenance point load, so when it
governs, the reported moment is M·L/4 and the reported shear is M/2, both
independent of the additional loads.  First conjunct: when the maintenance
point moment strictly dominates the three uniform candidates, it is reported
with the isolated value.  Second: the src shear block returns maintenance/2
for the maintenance case.  Third: with zero maintenance and wind, the
governing case is Dead + Live with the additional loads included in its
moment. -/
theorem c3_maintenance_amended (l : Loads) (span : ℚ) (hs : span ≠ 0) :
    ((l.dead + l.live + l.additional) * span ^ 2 / 8 <
        l.maintenance * span / 4 →
      (l.dead + l.live + l.wind + l.additional) * span ^ 2 / 8 <
        l.maintenance * span / 4 →
      (l.dead + l.live + l.maintenance / span + l.additional) * span ^ 2 / 8 <
        l.maintenance * span / 4 →
      calculate_critical_moment l span =
        .ok ⟨l.maintenance * span / 4, "Maintenance (point load)"⟩) ∧
    purlinShearAndType span l.maintenance l.dead l.live l.wind l.additional
      "Maintenance (point load)" = .ok (l.maintenance / 2, "point_center") ∧
    (l.maintenance = 0 → l.wind = 0 →
      0 ≤ (l.dead + l.live + l.additional) * span ^ 2 / 8 →
      calculate_critical_moment l span =
        .ok ⟨(l.dead + l.live + l.additional) * span ^ 2 / 8,
          "Dead + Live"⟩) := by
  refine ⟨?_, ?_, ?_⟩
  · intro h1 h2 h3
    simp only [calculate_critical_moment, if_neg hs]
    simp only [calculate_moment_uniform, calculate_moment_point, ok_bind,
      pickCritical]
    split_ifs <;> first | rfl | (exfalso; linarith)
  · simp [purlinShearAndType]
  · intro hm hw h0
    simp only [calculate_critical_moment, if_neg hs]
    simp only [calculate_moment_uniform, calculate_moment_point, ok_bind,
      pickCritical, hm, hw, add_zero, zero_mul, zero_div, zero_add]
    split_ifs <;> first | rfl | (exfalso; linarith)

/-- Witness for C3 amended, at loads dead = live = wind = 0, maintenance =
9.81 kN, additional = 1 kN/m, span 4 m: the maintenance point combination
governs with moment 9.81 kNm, and the shear block returns 4.905 kN. -/
theorem c3_maintenance_amended_witness :
    calculate_critical_moment ⟨0, 0, 0, 981 / 100, 1⟩ 4 =
      .ok ⟨981 / 100 * 4 / 4, "Maintenance (point load)"⟩ ∧
    purlinShearAndType 4 (981 / 100) 0 0 0 1 "Maintenance (point load)" =
      .ok (981 / 100 / 2, "point_center") := by
  have h := c3_maintenance_amended ⟨0, 0, 0, 981 / 100, 1⟩ 4 (by norm_num)
  exact ⟨h.1 (by norm_num) (by norm_num) (by norm_num), h.2.1⟩

/-- For a non-zero span the additional-load loop always succeeds. -/
theorem processAdditionalLoads_ok (span : ℚ) (hs : span ≠ 0) :
    ∀ l : List AdditionalLoad, ∃ a, processAdditionalLoads span l = .ok a := by
  intro l
  induction l with
  | nil => exact ⟨0, rfl⟩
  | cons x rest ih =>
    obtain ⟨a, ha⟩ := ih
    by_cases hm : unitHasM x.unit = true
    · exact ⟨convert_to_kn x.value x.unit + a,
        by simp [processAdditionalLoads, processAdditionalLoad, hm, ha,
          ok_bind]⟩
    · exact ⟨convert_to_kn x.value x.unit / span + a,
        by simp [processAdditionalLoads, processAdditionalLoad, hm, hs, ha,
          ok_bind]⟩

/-- C7 counterexample: the floor-beam run `exC7` has span -5 ≤ 0, yet the
computation does not abort: it returns a complete result whose moment is
1·(-5)²/8 = 25/8 kNm.  No InvalidInput failure exists anywhere in the
pipeline. -/
theorem c7_no_span_validation_counterexample :
    exC7.span ≤ 0 ∧
    (floorBeamCalc exC7).map (fun o => o.moment) = .ok (25 / 8) := by
  constructor
  · norm_num [exC7]
  · norm_num [floorBeamCalc, floorBeamCore, beam_width,
      processAdditionalLoads, calculate_moment_uniform,
      calculate_shear_uniform, select_optimal_section, parsePattern_uniform,
      ok_bind, map_ok, exC7]

/-- For a non-zero span every floor-beam run completes. -/
theorem floorBeamCalc_ok (i : FloorBeamInputs) (hs : i.span ≠ 0) :
    ∃ o, floorBeamCalc i = .ok o := by
  obtain ⟨A, hA⟩ := processAdditionalLoads_ok i.span hs i.additional_loads
  simp only [floorBeamCalc, floorBeamCore]
  by_cases hr : 0 < i.supported_beam_reaction
  · simp [hr, hs, hA, ok_bind, calculate_moment_uniform,
      calculate_shear_uniform, select_optimal_section, parsePattern_uniform,
      map_ok]
  · simp [hr, hA, ok_bind, calculate_moment_uniform,
      calculate_shear_uniform, select_optimal_section, parsePattern_uniform,
      map_ok]

/-- For a non-zero span the combiner always succeeds: the only division it
performs is the maintenance load by the span. -/
theorem calculate_critical_moment_ok (l : Loads) (span : ℚ)
    (hs : span ≠ 0) : ∃ m, calculate_critical_moment l span = .ok m := by
  simp only [calculate_critical_moment, if_neg hs, calculate_moment_uniform,
    calculate_moment_point, ok_bind]
  exact ⟨_, rfl⟩

/-- For a non-zero span the purlin shear block always succeeds, on any
critical-case name, and returns one of the two recognized pattern tags. -/
theorem purlinShearAndType_ok (span m d lv w a : ℚ) (hs : span ≠ 0)
    (c : String) :
    ∃ p : ℚ × String, purlinShearAndType span m d lv w a c = .ok p ∧
      ∃ pat, parsePattern p.2 = some pat := by
  by_cases hc : c = "Maintenance (point load)"
  · refine ⟨(m / 2, "point_center"), ?_, .point_center, parsePattern_point⟩
    simp [purlinShearAndType, hc]
  · by_cases hm : (containsStr c "Maintenance" && !containsStr c "point")
      = true
    · refine ⟨(((if containsStr c "Dead + Live" then d + lv else 0) +
        m / span + (if containsStr c "Wind" then w else 0) + a) * span / 2,
        "uniform"), ?_, .uniform, parsePattern_uniform⟩
      simp [purlinShearAndType, hc, hm, hs, ok_bind, calculate_shear_uniform]
    · refine ⟨(((if containsStr c "Dead + Live" then d + lv else 0) +
        0 + (if containsStr c "Wind" then w else 0) + a) * span / 2,
        "uniform"), ?_, .uniform, parsePattern_uniform⟩
      simp [purlinShearAndType, hc, hm, ok_bind, calculate_shear_uniform]

/-- The selector succeeds on any load-type string the pattern parser
recognizes. -/
theorem select_ok_of_parse (moment span : ℚ) (lt : String)
    (g : SteelGrade) (cde : DesignCode) (fam : SectionFamily)
    (pat : LoadPattern) (h : parsePattern lt = some pat) :
    select_optimal_section moment span lt g cde fam =
      .ok (selectGo (checkSection cde g moment span pat fam)
        (catalogFor cde fam).1 (catalogFor cde fam).2) := by
  simp [select_optimal_section, h]

/-- For a non-zero span every purlin run completes. -/
theorem purlinCalc_ok (j : PurlinInputs) (hs : j.span ≠ 0) :
    ∃ o, purlinCalc j = .ok o := by
  obtain ⟨A, hA⟩ := processAdditionalLoads_ok j.span hs j.additional_loads
  obtain ⟨m, hm⟩ := calculate_critical_moment_ok
    { dead := j.dead_load, live := j.live_load,
      wind := calculate_wind_load j.span j.wind_load purlin_spacing,
      maintenance := j.maintenance_load * KG_TO_KN, additional := A }
    j.span hs
  obtain ⟨p, hp, pat, hpat⟩ := purlinShearAndType_ok j.span
    (j.maintenance_load * KG_TO_KN) j.dead_load j.live_load
    (calculate_wind_load j.span j.wind_load purlin_spacing) A hs
    m.critical_case
  simp only [purlinCalc, purlinCore, hA, ok_bind, hm, hp,
    select_ok_of_parse m.critical_moment j.span p.2 j.steel_grade
      j.design_code .Channel pat hpat, map_ok]
  exact ⟨_, rfl⟩

/-- C7 amended: neither page performs any span validation.  Every floor-beam
run and every purlin run with a negative span completes and returns a full
result, computed with the negative span; the only failures the pipelines can
produce at all are a division by zero (span = 0 while distributing a point
or force load) or an unsupported pattern tag, never an InvalidInput. -/
theorem c7_no_span_validation_amended (i : FloorBeamInputs)
    (j : PurlinInputs) (hnegf : i.span < 0) (hnegp : j.span < 0) :
    (∃ o, floorBeamCalc i = .ok o) ∧ ∃ o, purlinCalc j = .ok o :=
  ⟨floorBeamCalc_ok i (ne_of_lt hnegf), purlinCalc_ok j (ne_of_lt hnegp)⟩

/-- Witness for C7 amended at the concrete runs `exC7` (floor beam, span
-5 m) and `exC7p` (purlin, span -5 m). -/
theorem c7_no_span_validation_witness :
    exC7.span < 0 ∧ exC7p.span < 0 ∧
      (∃ o, floorBeamCalc exC7 = .ok o) ∧
      ∃ o, purlinCalc exC7p = .ok o := by
  have h := c7_no_span_validation_amended exC7 exC7p (by norm_num [exC7])
    (by norm_num [exC7p])
  exact ⟨by norm_num [exC7], by norm_num [exC7p], h.1, h.2⟩

/-- C8 counterexample: there exists no pair of design runs, floor-beam or
purlin, that differ only in the chord angle and yield different LTB check
results — the chord angle is read and echoed by both pages but never passed
to `select_optimal_section`, so the LTB check cannot depend on it. -/
theorem c8_chord_angle_counterexample :
    (¬ ∃ (i : FloorBeamInputs) (a b : ℚ),
        (floorBeamCalc { i with chord_angle := a }).map
            (fun o => o.results.ltb_check) ≠
          (floorBeamCalc { i with chord_angle := b }).map
            (fun o => o.results.ltb_check)) ∧
    (¬ ∃ (j : PurlinInputs) (a b : ℚ),
        (purlinCalc { j with chord_angle := a }).map
            (fun o => o.results.ltb_check) ≠
          (purlinCalc { j with chord_angle := b }).map
            (fun o => o.results.ltb_check)) := by
  constructor
  · rintro ⟨i, a, b, hne⟩
    exact hne (by cases i; simp only [floorBeamCalc, except_map_map])
  · rintro ⟨j, a, b, hne⟩
    exact hne (by cases j; simp only [purlinCalc, except_map_map])

/-- C8 amended: the chord angle input has no effect on the LTB check or on
any part of the selected DesignResult; it is collected and echoed in the
stored results but never handed to the engine, so two runs that differ only
in the chord angle produce identical LTB checks and identical design
results. -/
theorem c8_chord_angle_amended (i : FloorBeamInputs) (j : PurlinInputs)
    (a b : ℚ) :
    (floorBeamCalc { i with chord_angle := a }).map
        (fun o => o.results.ltb_check) =
      (floorBeamCalc { i with chord_angle := b }).map
        (fun o => o.results.ltb_check) ∧
    (purlinCalc { j with chord_angle := a }).map
        (fun o => o.results.ltb_check) =
      (purlinCalc { j with chord_angle := b }).map
        (fun o => o.results.ltb_check) ∧
    (floorBeamCalc { i with chord_angle := a }).map (fun o => o.results) =
      (floorBeamCalc { i with chord_angle := b }).map (fun o => o.results) ∧
    (purlinCalc { j with chord_angle := a }).map (fun o => o.results) =
      (purlinCalc { j with chord_angle := b }).map (fun o => o.results) := by
  refine ⟨?_, ?_, ?_, ?_⟩
  · cases i; simp only [floorBeamCalc, except_map_map]
  · cases j; simp only [purlinCalc, except_map_map]
  · cases i; simp only [floorBeamCalc, except_map_map]
  · cases j; simp only [purlinCalc, except_map_map]

/-- C9: for every floor-beam run with a positive supported-beam reaction R
and non-zero span, the reaction is converted to the equivalent uniform load
R/span and added to the dead load, and the reported moment and shear are the
uniform-pattern formulas w·L²/8 and w·L/2 on the resulting total linear
load — the floor-beam page only ever analyses the uniform pattern. -/
theorem c9_uniform_pattern (i : FloorBeamInputs) (A : ℚ)
    (hR : 0 < i.supported_beam_reaction) (hs : i.span ≠ 0)
    (hA : processAdditionalLoads i.span i.additional_loads = .ok A) :
    (floorBeamCalc i).map (fun o => (o.total_load, o.moment, o.shear)) =
      .ok (i.dead_load + i.supported_beam_reaction / i.span +
             i.floor_cover_load * beam_width + i.live_load * beam_width + A,
           (i.dead_load + i.supported_beam_reaction / i.span +
             i.floor_cover_load * beam_width + i.live_load * beam_width + A) *
             i.span ^ 2 / 8,
           (i.dead_load + i.supported_beam_reaction / i.span +
             i.floor_cover_load * beam_width + i.live_load * beam_width + A) *
             i.span / 2) := by
  simp only [floorBeamCalc, floorBeamCore]
  simp [hR, hs, hA, ok_bind, calculate_moment_uniform,
    calculate_shear_uniform, select_optimal_section, parsePattern_uniform,
    map_ok]

/-- Witness for C9 at the run `exC9` (span 5 m, dead load 1 kN/m, reaction
10 kN): total load 1 + 10/5 = 3 kN/m, moment 3·5²/8 = 75/8 kNm, shear
3·5/2 = 15/2 kN. -/
theorem c9_uniform_pattern_witness :
    (floorBeamCalc exC9).map (fun o => (o.total_load, o.moment, o.shear)) =
      .ok (3, 75 / 8, 15 / 2) := by
  have h := c9_uniform_pattern exC9 0 (by norm_num [exC9])
    (by norm_num [exC9]) rfl
  rw [h]
  norm_num [exC9, beam_width]

theorem processAdditionalLoad_congr (span : ℚ) (x y : AdditionalLoad)
    (hv : x.value = y.value) (hu : x.unit = y.unit) :
    processAdditionalLoad span x = processAdditionalLoad span y := by
  cases x
  cases y
  cases hv
  cases hu
  rfl

theorem processAdditionalLoads_congr (span : ℚ) :
    ∀ (l1 l2 : List AdditionalLoad),
      l1.map (fun x => (x.value, x.unit)) =
        l2.map (fun x => (x.value, x.unit)) →
      processAdditionalLoads span l1 = processAdditionalLoads span l2 := by
  intro l1
  induction l1 with
  | nil =>
    intro l2 h
    cases l2 with
    | nil => rfl
    | cons y rest2 => simp at h
  | cons x rest ih =>
    intro l2 h
    cases l2 with
    | nil => simp at h
    | cons y rest2 =>
      simp only [List.map_cons, List.cons.injEq, Prod.mk.injEq] at h
      obtain ⟨⟨hv, hu⟩, ht⟩ := h
      simp only [processAdditionalLoads]
      rw [processAdditionalLoad_congr span x y hv hu, ih rest2 ht]

theorem floorBeamCore_adds_congr (span d f lv r : ℚ) (g : SteelGrade)
    (c : DesignCode) (l1 l2 : List AdditionalLoad)
    (h : l1.map (fun x => (x.value, x.unit)) =
      l2.map (fun x => (x.value, x.unit))) :
    floorBeamCore span d f lv r g c l1 = floorBeamCore span d f lv r g c l2 := by
  simp only [floorBeamCore]
  rw [processAdditionalLoads_congr span l1 l2 h]

theorem purlinCore_adds_congr (span d lv m w : ℚ) (g : SteelGrade)
    (c : DesignCode) (l1 l2 : List AdditionalLoad)
    (h : l1.map (fun x => (x.value, x.unit)) =
      l2.map (fun x => (x.value, x.unit))) :
    purlinCore span d lv m w g c l1 = purlinCore span d lv m w g c l2 := by
  simp only [purlinCore]
  rw [processAdditionalLoads_congr span l1 l2 h]

/-- C10: the per-load case tag (Case A / Case B) has no effect on any
computed output: two runs whose additional loads agree in value and unit but
may differ arbitrarily in their case tags report identical moment, shear,
critical case and DesignResult, for both pages. -/
theorem c10_case_tag_noninterference (i : FloorBeamInputs) (j : PurlinInputs)
    (l1 l2 m1 m2 : List AdditionalLoad)
    (hf : l1.map (fun x => (x.value, x.unit)) =
      l2.map (fun x => (x.value, x.unit)))
    (hp : m1.map (fun x => (x.value, x.unit)) =
      m2.map (fun x => (x.value, x.unit))) :
    (floorBeamCalc { i with additional_loads := l1 }).map
        (fun o => (o.moment, o.shear, o.results)) =
      (floorBeamCalc { i with additional_loads := l2 }).map
        (fun o => (o.moment, o.shear, o.results)) ∧
    (purlinCalc { j with additional_loads := m1 }).map
        (fun o => (o.moment, o.shear, o.critical_case, o.results)) =
      (purlinCalc { j with additional_loads := m2 }).map
        (fun o => (o.moment, o.shear, o.critical_case, o.results)) := by
  constructor
  · cases i
    simp only [floorBeamCalc, except_map_map]
    rw [floorBeamCore_adds_congr _ _ _ _ _ _ _ l1 l2 hf]
  · cases j
    simp only [purlinCalc, except_map_map]
    rw [purlinCore_adds_congr _ _ _ _ _ _ _ m1 m2 hp]

/-- Witness for C10: concrete runs whose single additional load of 2 kN is
tagged Case A versus Case B give identical outputs. -/
theorem c10_case_tag_noninterference_witness :
    (floorBeamCalc { exC10f with additional_loads := [⟨2, .kN, .caseA⟩] }).map
        (fun o => (o.moment, o.shear, o.results)) =
      (floorBeamCalc { exC10f with
          additional_loads := [⟨2, .kN, .caseB⟩] }).map
        (fun o => (o.moment, o.shear, o.results)) ∧
    (purlinCalc { exC10p with additional_loads := [⟨2, .kN, .caseA⟩] }).map
        (fun o => (o.moment, o.shear, o.critical_case, o.results)) =
      (purlinCalc { exC10p with additional_loads := [⟨2, .kN, .caseB⟩] }).map
        (fun o => (o.moment, o.shear, o.critical_case, o.results)) :=
  c10_case_tag_noninterference exC10f exC10p _ _ _ _ rfl rfl

end Structo
